import Mathlib

/-!
Verification of the news-api trending / geo-filtering core.

Shallow embedding of the Python sources (`news_service.py`, `llm_service.py`,
`cache_service.py`, `models.py`, `database.py`) into Lean.  Python floats are
modelled as real numbers, datetimes as real-valued UTC timestamps in seconds,
database rows as structures, and the external collaborators (LLM summarizer,
JSON decoder, MD5 hashing, Redis availability) as explicit function
parameters.  Each definition is annotated with the source location it embeds.
-/

namespace NewsApi

noncomputable section

open Real List Classical

/-- Python `math.radians x`: degree-to-radian conversion used by
`NewsService._calculate_distance` (news_service.py:211-215). -/
def radians (x : ℝ) : ℝ := x * π / 180

/-- Python `math.atan2 y x` on real (non-floating-point) values, as called at
news_service.py:218.  Branches follow the mathematical definition of the
two-argument arctangent; IEEE signed zeros do not exist in `ℝ`. -/
def atan2 (y x : ℝ) : ℝ :=
  if 0 < x then arctan (y / x)
  else if x < 0 ∧ 0 ≤ y then arctan (y / x) + π
  else if x < 0 then arctan (y / x) - π
  else if 0 < y then π / 2
  else if y < 0 then -(π / 2)
  else 0

/-- NewsService._calculate_distance (news_service.py:205-221): haversine
great-circle distance in kilometres with Earth radius 6371 km. -/
def calculate_distance (lat1 lon1 lat2 lon2 : ℝ) : ℝ :=
  let R : ℝ := 6371
  let dlat := radians (lat2 - lat1)
  let dlon := radians (lon2 - lon1)
  let a := Real.sin (dlat / 2) * Real.sin (dlat / 2) +
    Real.cos (radians lat1) * Real.cos (radians lat2) *
    Real.sin (dlon / 2) * Real.sin (dlon / 2)
  let c := 2 * atan2 (Real.sqrt a) (Real.sqrt (1 - a))
  R * c

/-- Database row of the `news_articles` table (database.py:19-35).  The
`category` column stores a JSON-encoded list as a string; `llm_summary` is
nullable; `created_at` and `updated_at` are the ORM bookkeeping columns, and
`updated_at` has `onupdate=datetime.utcnow` (database.py:35), so any UPDATE of
the row also rewrites it.  Timestamps are real-valued UTC seconds. -/
structure NewsArticleDB where
  id : String
  title : String
  description : String
  url : String
  publication_date : ℝ
  source_name : String
  category : String
  relevance_score : ℝ
  latitude : ℝ
  longitude : ℝ
  llm_summary : Option String
  created_at : ℝ
  updated_at : ℝ

/-- Database row of the `user_events` table (database.py:38-50). -/
structure UserEventDB where
  id : String
  user_id : String
  article_id : String
  event_type : String
  latitude : ℝ
  longitude : ℝ
  timestamp : ℝ

/-- Pydantic response model `NewsArticle` (models.py:33-45), with the decoded
category list. -/
structure NewsArticle where
  id : String
  title : String
  description : String
  url : String
  publication_date : ℝ
  source_name : String
  category : List String
  relevance_score : ℝ
  latitude : ℝ
  longitude : ℝ
  llm_summary : Option String

/-- Event-type weight lookup `event_weights.get(event.event_type, 1.0)` with
the fixed table at news_service.py:184: view=1.0, click=2.0, share=5.0,
like=3.0, any other kind defaults to 1.0. -/
def event_weight (kind : String) : ℝ :=
  if kind = "view" then 1.0
  else if kind = "click" then 2.0
  else if kind = "share" then 5.0
  else if kind = "like" then 3.0
  else 1.0

/-- Recency decay factor `max(0.1, 1.0 - (hours_ago / 24))`
(news_service.py:188). -/
def recency_factor (hours_ago : ℝ) : ℝ := max 0.1 (1.0 - hours_ago / 24)

/-- Distance decay factor `max(0.1, 1.0 - (distance / radius_km))`
(news_service.py:194). -/
def distance_factor (distance radius_km : ℝ) : ℝ := max 0.1 (1.0 - distance / radius_km)

/-- Event filter of the query at news_service.py:161-173: same article id,
timestamp at or after the cutoff, and latitude/longitude each within 0.5
degrees of the query origin (the coarse bounding box). -/
def event_matches (article_id : String) (latitude longitude cutoff_time : ℝ)
    (e : UserEventDB) : Prop :=
  e.article_id = article_id ∧ cutoff_time ≤ e.timestamp ∧
    |e.latitude - latitude| ≤ 0.5 ∧ |e.longitude - longitude| ≤ 0.5

/-- Per-event score term of the loop at news_service.py:182-201:
`event_weights.get(kind, 1.0) * recency_factor * distance_factor`, where
`hours_ago = (now - timestamp).total_seconds() / 3600` and the distance is the
precise haversine distance from the query origin to the event. -/
def event_score (now latitude longitude radius_km : ℝ) (e : UserEventDB) : ℝ :=
  event_weight e.event_type *
    recency_factor ((now - e.timestamp) / 3600) *
    distance_factor (calculate_distance latitude longitude e.latitude e.longitude) radius_km

/-- NewsService._calculate_trending_score (news_service.py:154-203).  The two
`datetime.utcnow()` calls (lines 159 and 180) are modelled by the single
parameter `now`; `timedelta(hours=24)` is 86400 seconds.  The event store
query is modelled as a filter over the full event list; if no event matches
the function returns 0.0, otherwise the sum of the per-event scores. -/
def calculate_trending_score (events : List UserEventDB) (now : ℝ)
    (article_id : String) (latitude longitude radius_km : ℝ) : ℝ :=
  let cutoff_time := now - 24 * 3600
  let matching := events.filter fun e =>
    decide (event_matches article_id latitude longitude cutoff_time e)
  if matching = [] then 0.0
  else (matching.map (event_score now latitude longitude radius_km)).sum

/-- Python truthiness test `if not llm_summary:` at news_service.py:232 —
blank means `None` or the empty string. -/
def is_blank : Option String → Bool
  | none => true
  | some s => s.isEmpty

/-- Truncation fallback `description[:200] + "..." if len(description) > 200
else description` (llm_service.py:300-301, 307, and news_service.py:242-246). -/
def fallback_summary (description : String) : String :=
  if 200 < description.length then description.take 200 ++ "..." else description

/-- Outcome of the external LLM provider call inside
`LLMService.summarize_article`: no client configured (llm_service.py:299),
the provider call raised (llm_service.py:304), or it returned a text. -/
inductive ProviderOutcome where
  | unavailable : ProviderOutcome
  | failure : ProviderOutcome
  | success : String → ProviderOutcome

/-- LLMService.summarize_article (llm_service.py:292-307): returns the
provider text on success and otherwise falls back to the truncated
description; it never raises. -/
def summarize_article (outcome : ProviderOutcome) (title description : String) : String :=
  match title, outcome with
  | _, .success text => text
  | _, .unavailable => fallback_summary description
  | _, .failure => fallback_summary description

/-- Body of the per-article loop of NewsService._process_articles
(news_service.py:229-272).  `call` models the awaited call
`llm_service.summarize_article(title, description)` — `Except.error` means the
call raised and the local fallback at news_service.py:242-246 runs (without a
database write); `Except.ok s` means it returned `s`, which is also written
back to the row (news_service.py:238-239) — that UPDATE also rewrites the
`updated_at` column through its `onupdate=datetime.utcnow` default
(database.py:35), modelled by the commit-time parameter `write_time`.
`jsonLoads` models
`json.loads` on the stored category string, `none` meaning a parse failure,
in which case the fallback at news_service.py:256 runs.  Returns the
processed `NewsArticle` together with the (possibly updated) stored row. -/
def process_article (call : NewsArticleDB → Except Unit String)
    (jsonLoads : String → Option (List String)) (write_time : ℝ)
    (article : NewsArticleDB) : NewsArticle × NewsArticleDB :=
  let sc : Option String × NewsArticleDB :=
    if is_blank article.llm_summary then
      match call article with
      | .ok s =>
        (some s, { article with llm_summary := some s, updated_at := write_time })
      | .error _ => (some (fallback_summary article.description), article)
    else (article.llm_summary, article)
  let category : List String :=
    match jsonLoads article.category with
    | some l => l
    | none => if article.category = "" then [] else [article.category]
  (⟨article.id, article.title, article.description, article.url,
    article.publication_date, article.source_name, category,
    article.relevance_score, article.latitude, article.longitude, sc.1⟩,
   sc.2)

/-- NewsService._process_articles (news_service.py:223-274): processes every
row in order; the first component is the returned article list, the second
the state of the store rows afterwards. -/
def process_articles (call : NewsArticleDB → Except Unit String)
    (jsonLoads : String → Option (List String)) (write_time : ℝ)
    (articles : List NewsArticleDB) : List NewsArticle × List NewsArticleDB :=
  (articles.map fun a => (process_article call jsonLoads write_time a).1,
   articles.map fun a => (process_article call jsonLoads write_time a).2)

/-- Geo-filter loop of NewsService.get_nearby_news (news_service.py:98-104):
pair every stored article whose haversine distance to the origin is at most
`radius_km` with that distance. -/
def nearby_with_distance (latitude longitude radius_km : ℝ)
    (all_articles : List NewsArticleDB) : List (NewsArticleDB × ℝ) :=
  all_articles.filterMap fun article =>
    let distance := calculate_distance latitude longitude article.latitude article.longitude
    if distance ≤ radius_km then some (article, distance) else none

/-- Sort key of `nearby_articles.sort(key=lambda x: x[1])`
(news_service.py:107): ascending by the paired distance. -/
def dist_le (x y : NewsArticleDB × ℝ) : Prop := x.2 ≤ y.2

instance : IsTotal (NewsArticleDB × ℝ) dist_le := ⟨fun a b => le_total a.2 b.2⟩

instance : IsTrans (NewsArticleDB × ℝ) dist_le := ⟨fun _ _ _ h h' => le_trans h h'⟩

/-- Python `list.sort` is a stable sort; `List.insertionSort` with a total
preorder places an element before the first existing element it is related
to, which reproduces exactly that stable order. -/
def nearby_sorted (l : List (NewsArticleDB × ℝ)) : List (NewsArticleDB × ℝ) :=
  l.insertionSort dist_le

/-- Selection part of NewsService.get_nearby_news (news_service.py:91-108):
distance-filter, stable ascending sort by distance, truncate to `limit`, drop
the distances. -/
def get_nearby_news_articles (latitude longitude radius_km : ℝ) (limit : ℕ)
    (all_articles : List NewsArticleDB) : List NewsArticleDB :=
  ((nearby_sorted (nearby_with_distance latitude longitude radius_km all_articles)).take
    limit).map Prod.fst

/-- NewsService.get_nearby_news (news_service.py:91-110): the selected rows
are processed into `NewsArticle`s (summaries and category decoding). -/
def get_nearby_news (call : NewsArticleDB → Except Unit String)
    (jsonLoads : String → Option (List String)) (write_time : ℝ)
    (latitude longitude radius_km : ℝ) (limit : ℕ)
    (all_articles : List NewsArticleDB) : List NewsArticle :=
  (process_articles call jsonLoads write_time
    (get_nearby_news_articles latitude longitude radius_km limit all_articles)).1

/-- Scoring loop of NewsService.get_trending_news (news_service.py:130-137):
keep each candidate whose trending score is strictly positive, paired with
its score. -/
def trending_data (events : List UserEventDB) (now latitude longitude radius_km : ℝ)
    (candidates : List NewsArticle) : List (NewsArticle × ℝ) :=
  candidates.filterMap fun article =>
    let score := calculate_trending_score events now article.id latitude longitude radius_km
    if 0 < score then some (article, score) else none

/-- Sort key of `trending_data.sort(key=lambda x: x[1], reverse=True)`
(news_service.py:140): descending by the paired score. -/
def score_ge (x y : NewsArticle × ℝ) : Prop := y.2 ≤ x.2

instance : IsTotal (NewsArticle × ℝ) score_ge := ⟨fun a b => le_total b.2 a.2⟩

instance : IsTrans (NewsArticle × ℝ) score_ge := ⟨fun _ _ _ h h' => le_trans h' h⟩

/-- Stable descending sort of the scored candidates (news_service.py:140),
modelling the Python stable `list.sort` with `reverse=True`. -/
def trending_sorted (l : List (NewsArticle × ℝ)) : List (NewsArticle × ℝ) :=
  l.insertionSort score_ge

/-- Pydantic response model `TrendingResponse` (models.py:91-97); the
location is kept as a latitude/longitude pair. -/
structure TrendingResponse where
  articles : List NewsArticle
  trending_scores : List ℝ
  location_latitude : ℝ
  location_longitude : ℝ
  radius_km : ℝ
  total_count : ℕ

/-- Candidate set of a trending query (news_service.py:117-119): the nearby
articles fetched with twice the requested limit. -/
def trending_candidates (call : NewsArticleDB → Except Unit String)
    (jsonLoads : String → Option (List String)) (write_time : ℝ)
    (latitude longitude radius_km : ℝ) (limit : ℕ)
    (all_articles : List NewsArticleDB) : List NewsArticle :=
  get_nearby_news call jsonLoads write_time latitude longitude radius_km (limit * 2)
    all_articles

/-- NewsService.get_trending_news (news_service.py:112-152): candidates are
the nearby articles fetched with `limit * 2`; an empty candidate list yields
the empty response; otherwise the positively-scored candidates are sorted
descending by score (stably), truncated to `limit`, and `total_count` is the
number of scored candidates before truncation. -/
def get_trending_news (call : NewsArticleDB → Except Unit String)
    (jsonLoads : String → Option (List String)) (write_time : ℝ)
    (events : List UserEventDB) (now latitude longitude radius_km : ℝ) (limit : ℕ)
    (all_articles : List NewsArticleDB) : TrendingResponse :=
  let nearby_articles :=
    trending_candidates call jsonLoads write_time latitude longitude radius_km limit
      all_articles
  if nearby_articles = [] then
    ⟨[], [], latitude, longitude, radius_km, 0⟩
  else
    let td := trending_data events now latitude longitude radius_km nearby_articles
    let sorted := trending_sorted td
    let top_articles := (sorted.take limit).map Prod.fst
    let top_scores := (sorted.take limit).map Prod.snd
    ⟨top_articles, top_scores, latitude, longitude, radius_km, td.length⟩

/-- Python `round(x, ndigits)` modelled on the reals: round to the nearest
multiple of `10 ^ (-ndigits)`.  (CPython rounds ties on binary floats to
even; the tie-breaking rule is irrelevant to the statements below, which
only compare rounded values computed by this same function.) -/
def py_round (x : ℝ) (ndigits : ℕ) : ℝ := round (x * 10 ^ ndigits) / 10 ^ ndigits

/-- CacheService._generate_cache_key (cache_service.py:26-34): the MD5 hex
digest of `"trending:{lat:.2-rounded}:{lon:.2-rounded}:{radius:.1-rounded}:{limit}"`.
The formatting-and-hashing pipeline is abstracted as the external function
`md5_hex` of the rounded components. -/
def generate_cache_key (md5_hex : ℝ × ℝ × ℝ × ℕ → String)
    (latitude longitude radius_km : ℝ) (limit : ℕ) : String :=
  md5_hex (py_round latitude 2, py_round longitude 2, py_round radius_km 1, limit)

/-- Entry written to Redis by `setex` (cache_service.py:62): key,
time-to-live in seconds, serialized payload. -/
structure CacheEntry where
  key : String
  ttl : ℕ
  data : String

/-- CacheService.cache_ttl (cache_service.py:24): fixed at 300 seconds. -/
def cache_ttl : ℕ := 300

/-- CacheService.set_trending_cache (cache_service.py:53-67): stores nothing
when Redis is unavailable, otherwise writes the entry under the generated
key with the fixed TTL. -/
def set_trending_cache (md5_hex : ℝ × ℝ × ℝ × ℕ → String) (redis_available : Bool)
    (latitude longitude radius_km : ℝ) (limit : ℕ) (data : String) : Option CacheEntry :=
  if redis_available then
    some ⟨generate_cache_key md5_hex latitude longitude radius_km limit, cache_ttl, data⟩
  else none

/-- Frame of a stored article row: every column except the lazily populated
`llm_summary` and the JSON-encoded `category`. -/
def db_frame (a : NewsArticleDB) :
    String × String × String × String × ℝ × String × ℝ × ℝ × ℝ :=
  (a.id, a.title, a.description, a.url, a.publication_date, a.source_name,
   a.relevance_score, a.latitude, a.longitude)

/-- Frame of a processed article: same columns as `db_frame`. -/
def article_frame (p : NewsArticle) :
    String × String × String × String × ℝ × String × ℝ × ℝ × ℝ :=
  (p.id, p.title, p.description, p.url, p.publication_date, p.source_name,
   p.relevance_score, p.latitude, p.longitude)

/-- Specification-side selection of events for the trending score, written
from the wording of the claim: events that reference the candidate identifier,
whose elapsed time since the event is at most 24 hours (events timestamped
after `now` have negative elapsed time and are included, matching the
lower-cutoff-only filter of the code), and whose latitude and longitude each
differ from the origin by at most 0.5 degrees.  Used only to compare the
filter of the code against the claim. -/
def spec_matching_events (events : List UserEventDB) (now : ℝ) (article_id : String)
    (latitude longitude : ℝ) : List UserEventDB :=
  events.filter fun e =>
    decide (e.article_id = article_id ∧ now - e.timestamp ≤ 24 * 3600 ∧
      |e.latitude - latitude| ≤ 0.5 ∧ |e.longitude - longitude| ≤ 0.5)

/-- Sample summarizer call whose awaited call raises. -/
def sample_call : NewsArticleDB → Except Unit String := fun _ => Except.error ()

/-- Sample JSON decoder that always fails to parse. -/
def sample_json : String → Option (List String) := fun _ => none

/-- Sample stored article at the origin with no cached summary. -/
def artA : NewsArticleDB := ⟨"a1", "TA", "DA", "UA", 0, "S", "", 1, 0, 0, none, 0, 0⟩

/-- Second sample stored article, also at the origin, no cached summary. -/
def artB : NewsArticleDB := ⟨"a2", "TB", "DB", "UB", 0, "S", "", 1, 0, 0, none, 0, 0⟩

/-- Sample stored article that already carries a summary. -/
def artC : NewsArticleDB := ⟨"a3", "TC", "DC", "UC", 0, "S", "c", 1, 0, 0, some "x", 0, 0⟩

/-- Sample summarizer call that succeeds with the text "sum". -/
def sample_ok_call : NewsArticleDB → Except Unit String := fun _ => Except.ok "sum"

/-- Sample stored article without a summary whose `updated_at` is 5. -/
def artD : NewsArticleDB := ⟨"a4", "TD", "DD", "UD", 0, "S", "", 1, 0, 0, none, 0, 5⟩

/-- The processed form of `artA` under `sample_call` and `sample_json`. -/
def processedA : NewsArticle := ⟨"a1", "TA", "DA", "UA", 0, "S", [], 1, 0, 0, some "DA"⟩

/-- Sample view event on article a1 at the origin at time 0. -/
def sample_event : UserEventDB := ⟨"e1", "u1", "a1", "view", 0, 0, 0⟩

/-- Sample view event on article a1 at the origin timestamped 24 hours in the
future of evaluation time 0. -/
def future_event : UserEventDB := ⟨"e2", "u1", "a1", "view", 0, 0, 86400⟩

/-- Helper: the haversine distance from any point to itself is zero. -/
lemma calculate_distance_self (lat lon : ℝ) : calculate_distance lat lon lat lon = 0 := by
  simp only [calculate_distance, radians, sub_self, zero_mul, zero_div, Real.sin_zero,
    mul_zero, zero_add, add_zero, Real.sqrt_zero, sub_zero, Real.sqrt_one, atan2]
  rw [if_pos (by norm_num : (0:ℝ) < 1)]
  simp [Real.arctan_zero]

/-- Helper: the haversine distance is symmetric in its two coordinate pairs. -/
lemma calculate_distance_comm (lat1 lon1 lat2 lon2 : ℝ) :
    calculate_distance lat2 lon2 lat1 lon1 = calculate_distance lat1 lon1 lat2 lon2 := by
  simp only [calculate_distance]
  have key : ∀ x y : ℝ,
      Real.sin (radians (x - y) / 2) = -Real.sin (radians (y - x) / 2) := by
    intro x y
    have hxy : radians (x - y) = -(radians (y - x)) := by
      simp only [radians]; ring
    rw [hxy, neg_div, Real.sin_neg]
  rw [key lat1 lat2, key lon1 lon2]
  ring_nf

/-- Helper: the geo-filter is the filter of the within-radius predicate
paired with the computed distance. -/
lemma nearby_with_distance_eq (latitude longitude radius_km : ℝ)
    (arts : List NewsArticleDB) :
    nearby_with_distance latitude longitude radius_km arts =
      (arts.filter fun a =>
        decide (calculate_distance latitude longitude a.latitude a.longitude ≤ radius_km)).map
        fun a => (a, calculate_distance latitude longitude a.latitude a.longitude) := by
  induction arts with
  | nil => rfl
  | cons a l ih =>
    by_cases h : calculate_distance latitude longitude a.latitude a.longitude ≤ radius_km
    · simp only [nearby_with_distance, List.filterMap_cons, List.filter_cons] at ih ⊢
      rw [if_pos h]
      simp only [h, decide_True, if_true, List.map_cons]
      exact congrArg _ ih
    · simp only [nearby_with_distance, List.filterMap_cons, List.filter_cons] at ih ⊢
      rw [if_neg h]
      simp only [h, decide_False, if_false]
      exact ih

/-- Helper: members of the geo-filter output carry their own haversine
distance, which is within the radius. -/
lemma mem_nearby_with_distance {latitude longitude radius_km : ℝ}
    {arts : List NewsArticleDB} {p : NewsArticleDB × ℝ}
    (hp : p ∈ nearby_with_distance latitude longitude radius_km arts) :
    p.1 ∈ arts ∧ p.2 = calculate_distance latitude longitude p.1.latitude p.1.longitude ∧
      p.2 ≤ radius_km := by
  rw [nearby_with_distance_eq] at hp
  rcases List.mem_map.mp hp with ⟨a, ha, rfl⟩
  rcases List.mem_filter.mp ha with ⟨ha1, ha2⟩
  exact ⟨ha1, rfl, of_decide_eq_true ha2⟩

/-- Helper: the trending scoring loop is the filter of the positive-score
predicate paired with the computed score. -/
lemma trending_data_eq (events : List UserEventDB) (now latitude longitude radius_km : ℝ)
    (candidates : List NewsArticle) :
    trending_data events now latitude longitude radius_km candidates =
      (candidates.filter fun a =>
        decide (0 < calculate_trending_score events now a.id latitude longitude radius_km)).map
        fun a => (a, calculate_trending_score events now a.id latitude longitude radius_km) := by
  induction candidates with
  | nil => rfl
  | cons a l ih =>
    by_cases h : 0 < calculate_trending_score events now a.id latitude longitude radius_km
    · simp only [trending_data, List.filterMap_cons, List.filter_cons] at ih ⊢
      rw [if_pos h]
      simp only [h, decide_True, if_true, List.map_cons]
      exact congrArg _ ih
    · simp only [trending_data, List.filterMap_cons, List.filter_cons] at ih ⊢
      rw [if_neg h]
      simp only [h, decide_False, if_false]
      exact ih

/-- Helper: members of the scoring-loop output carry the trending score of
their own article, which is positive. -/
lemma mem_trending_data {events : List UserEventDB}
    {now latitude longitude radius_km : ℝ} {candidates : List NewsArticle}
    {p : NewsArticle × ℝ}
    (hp : p ∈ trending_data events now latitude longitude radius_km candidates) :
    p.1 ∈ candidates ∧
      p.2 = calculate_trending_score events now p.1.id latitude longitude radius_km ∧
      0 < p.2 := by
  rw [trending_data_eq] at hp
  rcases List.mem_map.mp hp with ⟨a, ha, rfl⟩
  rcases List.mem_filter.mp ha with ⟨ha1, ha2⟩
  exact ⟨ha1, rfl, of_decide_eq_true ha2⟩

/-- Helper: inserting an element whose key differs from every element it is
placed in front of does not change the filter along any key value; this is
the stability of `orderedInsert` with respect to a sort key. -/
lemma filter_key_orderedInsert {α : Type} (key : α → ℝ) (r : α → α → Prop)
    [DecidableRel r] (hr : ∀ a b, ¬ r a b → key a ≠ key b) (a : α) (l : List α)
    (s : ℝ) :
    (l.orderedInsert r a).filter (fun x => decide (key x = s)) =
      ((a :: l).filter fun x => decide (key x = s)) := by
  induction l with
  | nil => rfl
  | cons b l ih =>
    by_cases hab : r a b
    · simp only [List.orderedInsert, if_pos hab]
    · have hne : key a ≠ key b := hr a b hab
      simp only [List.orderedInsert, if_neg hab, List.filter_cons, ih]
      by_cases hb : key b = s
      · have ha : ¬ key a = s := fun h => hne (h.trans hb.symm)
        simp [hb, ha]
      · simp [hb]

/-- Helper: `insertionSort` is stable: filtering by any value of the sort key
returns the matching elements in their original order. -/
lemma filter_key_insertionSort {α : Type} (key : α → ℝ) (r : α → α → Prop)
    [DecidableRel r] (hr : ∀ a b, ¬ r a b → key a ≠ key b) (l : List α) (s : ℝ) :
    (l.insertionSort r).filter (fun x => decide (key x = s)) =
      l.filter fun x => decide (key x = s) := by
  induction l with
  | nil => rfl
  | cons a l ih =>
    rw [List.insertionSort, filter_key_orderedInsert key r hr, List.filter_cons,
      List.filter_cons, ih]

/-- Helper: processing touches only the stored `llm_summary` column and the
`onupdate`-maintained `updated_at` column, and leaves the row untouched when
a summary was already present. -/
lemma process_article_store (call : NewsArticleDB → Except Unit String)
    (jsonLoads : String → Option (List String)) (write_time : ℝ) (a : NewsArticleDB) :
    ({ (process_article call jsonLoads write_time a).2 with
        llm_summary := a.llm_summary, updated_at := a.updated_at } = a) ∧
      (is_blank a.llm_summary = false →
        (process_article call jsonLoads write_time a).2 = a) := by
  by_cases hb : is_blank a.llm_summary = true
  · refine ⟨?_, fun hf => by rw [hf] at hb; cases hb⟩
    unfold process_article
    rw [if_pos hb]
    cases hc : call a with
    | ok s => rfl
    | error e => rfl
  · refine ⟨?_, fun _ => ?_⟩ <;> (unfold process_article; rw [if_neg hb])

/-- Helper: the store rows after processing relate row-by-row to the inputs:
only `llm_summary` and `updated_at` may change, and only if the summary was
blank. -/
lemma process_articles_store_rel (call : NewsArticleDB → Except Unit String)
    (jsonLoads : String → Option (List String)) (write_time : ℝ) :
    ∀ articles : List NewsArticleDB,
      List.Forall₂
        (fun a s =>
          ({ s with llm_summary := a.llm_summary, updated_at := a.updated_at }
              : NewsArticleDB) = a ∧
          (is_blank a.llm_summary = false → s = a))
        articles (process_articles call jsonLoads write_time articles).2
  | [] => List.Forall₂.nil
  | a :: l =>
    List.Forall₂.cons (process_article_store call jsonLoads write_time a)
      (process_articles_store_rel call jsonLoads write_time l)

/-- Helper: the recency factor at zero elapsed hours is 1. -/
lemma recency_factor_zero : recency_factor 0 = 1 := by
  unfold recency_factor
  rw [max_eq_right (by norm_num : (0.1:ℝ) ≤ 1.0 - 0 / 24)]
  norm_num

/-- Helper: the recency factor of an event 24 hours in the future is 2,
above the claimed upper clamp of 1. -/
lemma recency_factor_neg24 : recency_factor (-24) = 2 := by
  unfold recency_factor
  rw [max_eq_right (by norm_num : (0.1:ℝ) ≤ 1.0 - -24 / 24)]
  norm_num

/-- Helper: the distance factor at distance 0 with radius 10 is 1. -/
lemma distance_factor_zero_ten : distance_factor 0 10 = 1 := by
  unfold distance_factor
  rw [max_eq_right (by norm_num : (0.1:ℝ) ≤ 1.0 - 0 / 10)]
  norm_num

/-- Helper: concrete trending score of a single view event at the origin on
article a1, queried from the origin with radius 10 at evaluation time 0. -/
lemma score_eval_single (t : ℝ) (eid uid : String) (ht : 0 - 24 * 3600 ≤ t) :
    calculate_trending_score [⟨eid, uid, "a1", "view", 0, 0, t⟩] 0 "a1" 0 0 10 =
      recency_factor ((0 - t) / 3600) := by
  have hm : event_matches "a1" 0 0 (0 - 24 * 3600) ⟨eid, uid, "a1", "view", 0, 0, t⟩ := by
    refine ⟨rfl, ht, ?_, ?_⟩ <;> norm_num
  simp only [calculate_trending_score, List.filter_cons, List.filter_nil]
  rw [if_pos (decide_eq_true hm), if_neg (List.cons_ne_nil _ _)]
  simp only [List.map_cons, List.map_nil, List.sum_cons, List.sum_nil, add_zero,
    event_score, event_weight, if_true]
  rw [show calculate_distance 0 0 (0:ℝ) (0:ℝ) = 0 from calculate_distance_self 0 0,
    distance_factor_zero_ten]
  ring

/-- Helper: the concrete trending score of `sample_event` is 1. -/
lemma score_eval_sample : calculate_trending_score [sample_event] 0 "a1" 0 0 10 = 1 := by
  have h := score_eval_single 0 "e1" "u1" (by norm_num)
  rw [show sample_event = ⟨"e1", "u1", "a1", "view", 0, 0, 0⟩ from rfl, h]
  norm_num [recency_factor_zero]

/-- Helper: the concrete trending score of `future_event` is 2. -/
lemma score_eval_future : calculate_trending_score [future_event] 0 "a1" 0 0 10 = 2 := by
  have h := score_eval_single 86400 "e2" "u1" (by norm_num)
  rw [show future_event = ⟨"e2", "u1", "a1", "view", 0, 0, 86400⟩ from rfl, h]
  rw [show ((0:ℝ) - 86400) / 3600 = -24 by norm_num, recency_factor_neg24]

/-- Helper: concrete nearby selection with a single in-radius article. -/
lemma nearby_sample_A : get_nearby_news_articles 0 0 10 2 [artA] = [artA] := by
  simp only [get_nearby_news_articles, nearby_sorted, nearby_with_distance,
    List.filterMap_cons, List.filterMap_nil]
  rw [show calculate_distance 0 0 artA.latitude artA.longitude = 0 from
    calculate_distance_self 0 0]
  rw [if_pos (by norm_num : (0:ℝ) ≤ 10)]
  simp [List.insertionSort, List.orderedInsert]

/-- Helper: concrete nearby selection with two co-located in-radius articles
and limit 1: only the first is kept. -/
lemma nearby_sample_AB : get_nearby_news_articles 0 0 10 1 [artA, artB] = [artA] := by
  simp only [get_nearby_news_articles, nearby_sorted, nearby_with_distance,
    List.filterMap_cons, List.filterMap_nil]
  rw [show calculate_distance 0 0 artA.latitude artA.longitude = 0 from
    calculate_distance_self 0 0]
  rw [show calculate_distance 0 0 artB.latitude artB.longitude = 0 from
    calculate_distance_self 0 0]
  rw [if_pos (by norm_num : (0:ℝ) ≤ 10)]
  rw [if_pos (by norm_num : (0:ℝ) ≤ 10)]
  simp only [List.insertionSort, List.orderedInsert]
  rw [if_pos (show dist_le (artA, 0) (artB, 0) from le_rfl)]
  simp

/-- Helper: concrete candidate set of the sample trending query. -/
lemma candidates_sample_eval :
    trending_candidates sample_call sample_json 0 0 0 10 1 [artA] = [processedA] := by
  unfold trending_candidates get_nearby_news
  rw [show (1 : ℕ) * 2 = 2 from rfl, nearby_sample_A]
  rfl

/-- Helper: concrete trending response of the sample query: one candidate at
the origin with a single view event scores 1. -/
lemma trending_sample_eval :
    get_trending_news sample_call sample_json 0 [sample_event] 0 0 0 10 1 [artA] =
      ⟨[processedA], [1], 0, 0, 10, 1⟩ := by
  simp only [get_trending_news]
  rw [candidates_sample_eval]
  rw [if_neg (List.cons_ne_nil _ _)]
  simp only [trending_data, List.filterMap_cons, List.filterMap_nil]
  rw [show processedA.id = "a1" from rfl, score_eval_sample]
  rw [if_pos (by norm_num : (0:ℝ) < 1)]
  simp only [trending_sorted, List.insertionSort, List.orderedInsert]
  simp

/-- C6: For every coordinate A, Distance(A, A) = 0, and for all coordinates A
and B, Distance(A, B) = Distance(B, A); the haversine distance is a pure
function of its four real arguments (hence deterministic and side-effect
free), stated for all real inputs, including coordinates outside the valid
latitude/longitude ranges. -/
theorem distance_zero_self_and_symmetric (lat1 lon1 lat2 lon2 : ℝ) :
    calculate_distance lat1 lon1 lat1 lon1 = 0 ∧
    calculate_distance lat1 lon1 lat2 lon2 = calculate_distance lat2 lon2 lat1 lon1 :=
  ⟨calculate_distance_self lat1 lon1, (calculate_distance_comm lat1 lon1 lat2 lon2).symm⟩

/-- C2 counterexample: a view event timestamped 24 hours after the evaluation
time passes the event filter, its recency factor is 2 (not clamped to 1), and
the whole trending score of that single weight-1 event is 2 — impossible if
both factors were at most 1. -/
theorem recency_factor_unclamped_above :
    recency_factor ((0 - future_event.timestamp) / 3600) = 2 ∧
    1 < recency_factor ((0 - future_event.timestamp) / 3600) ∧
    calculate_trending_score [future_event] 0 "a1" 0 0 10 = 2 := by
  have ht : ((0:ℝ) - future_event.timestamp) / 3600 = -24 := by
    rw [show future_event.timestamp = (86400:ℝ) from rfl]
    norm_num
  refine ⟨?_, ?_, score_eval_future⟩
  · rw [ht, recency_factor_neg24]
  · rw [ht, recency_factor_neg24]
    norm_num

/-- C2 (amended): recency_factor and distance_factor are each bounded below
by 0.1 for all inputs; recency_factor is at most 1 whenever the elapsed time
is nonnegative, and distance_factor is at most 1 whenever the distance is
nonnegative and the radius positive.  (The code has no upper clamp: an event
timestamped after the evaluation time makes recency_factor exceed 1, see the
counterexample.) -/
theorem decay_factors_clamped (hours_ago distance radius_km : ℝ) :
    0.1 ≤ recency_factor hours_ago ∧
    (0 ≤ hours_ago → recency_factor hours_ago ≤ 1) ∧
    0.1 ≤ distance_factor distance radius_km ∧
    (0 ≤ distance → 0 < radius_km → distance_factor distance radius_km ≤ 1) := by
  refine ⟨le_max_left _ _, fun h => ?_, le_max_left _ _, fun hd hr => ?_⟩
  · unfold recency_factor
    apply max_le (by norm_num)
    have h24 : 0 ≤ hours_ago / 24 := by positivity
    linarith
  · unfold distance_factor
    apply max_le (by norm_num)
    have hdr : 0 ≤ distance / radius_km := div_nonneg hd hr.le
    linarith

/-- Witness for the amended C2 at elapsed time 1 h, distance 2 km, radius
10 km. -/
theorem decay_factors_clamped_witness :
    0.1 ≤ recency_factor 1 ∧ recency_factor 1 ≤ 1 ∧
    0.1 ≤ distance_factor 2 10 ∧ distance_factor 2 10 ≤ 1 :=
  ⟨(decay_factors_clamped 1 2 10).1, (decay_factors_clamped 1 2 10).2.1 (by norm_num),
   (decay_factors_clamped 1 2 10).2.2.1,
   (decay_factors_clamped 1 2 10).2.2.2 (by norm_num) (by norm_num)⟩

/-- C1: the trending score is computed over exactly the events selected by
the filter stated by the claim (same article identifier, elapsed time at most 24 hours,
latitude and longitude each within 0.5 degrees of the origin); the score is
0 when no event matches and otherwise the sum over the matching events of
event_weight(kind) * recency_factor * distance_factor, where the distance
factor uses the precise haversine distance from the origin to the event; the
weight table is view=1, click=2, share=5, like=3 and any unknown kind
defaults to weight 1 without being rejected. -/
theorem trending_score_follows_spec (events : List UserEventDB)
    (now latitude longitude radius_km : ℝ) (article_id k : String)
    (hk1 : k ≠ "view") (hk2 : k ≠ "click") (hk3 : k ≠ "share") (hk4 : k ≠ "like") :
    calculate_trending_score events now article_id latitude longitude radius_km =
      ((spec_matching_events events now article_id latitude longitude).map fun e =>
        event_weight e.event_type * recency_factor ((now - e.timestamp) / 3600) *
          distance_factor (calculate_distance latitude longitude e.latitude e.longitude)
            radius_km).sum ∧
    (spec_matching_events events now article_id latitude longitude = [] →
      calculate_trending_score events now article_id latitude longitude radius_km = 0) ∧
    event_weight "view" = 1 ∧ event_weight "click" = 2 ∧ event_weight "share" = 5 ∧
    event_weight "like" = 3 ∧ event_weight k = 1 := by
  have hfilter :
      (events.filter fun e =>
        decide (event_matches article_id latitude longitude (now - 24 * 3600) e)) =
        spec_matching_events events now article_id latitude longitude := by
    unfold spec_matching_events
    apply List.filter_congr
    intro e _
    apply decide_eq_decide.mpr
    unfold event_matches
    constructor
    · rintro ⟨h1, h2, h3, h4⟩
      exact ⟨h1, by linarith, h3, h4⟩
    · rintro ⟨h1, h2, h3, h4⟩
      exact ⟨h1, by linarith, h3, h4⟩
  have hv : event_weight "view" = 1 := by
    unfold event_weight
    rw [if_pos rfl]
    norm_num
  have hcl : event_weight "click" = 2 := by
    unfold event_weight
    rw [if_neg (by decide), if_pos rfl]
    norm_num
  have hsh : event_weight "share" = 5 := by
    unfold event_weight
    rw [if_neg (by decide), if_neg (by decide), if_pos rfl]
    norm_num
  have hli : event_weight "like" = 3 := by
    unfold event_weight
    rw [if_neg (by decide), if_neg (by decide), if_neg (by decide), if_pos rfl]
    norm_num
  refine ⟨?_, ?_, hv, hcl, hsh, hli, ?_⟩
  · simp only [calculate_trending_score]
    rw [hfilter]
    by_cases he : spec_matching_events events now article_id latitude longitude = []
    · rw [if_pos he, he]
      norm_num
    · rw [if_neg he]
      exact congrArg List.sum (List.map_congr_left fun e _ => rfl)
  · intro he
    simp only [calculate_trending_score]
    rw [hfilter, if_pos he]
    norm_num
  · unfold event_weight
    rw [if_neg hk1, if_neg hk2, if_neg hk3, if_neg hk4]
    norm_num

/-- Witness for C1: the unknown kind "poke" gets weight 1 and an empty event
list yields score 0. -/
theorem trending_score_follows_spec_witness :
    event_weight "poke" = 1 ∧ calculate_trending_score [] 0 "a1" 0 0 10 = 0 := by
  have h := trending_score_follows_spec [] 0 0 0 10 "a1" "poke"
    (by decide) (by decide) (by decide) (by decide)
  exact ⟨h.2.2.2.2.2.2, h.2.1 rfl⟩

/-- C7: when the external summarizer is unavailable or fails, the failure
does not propagate: `summarize_article` itself returns the truncated
description, the article-processing loop swallows even a raising call and
uses the truncated-description fallback as `llm_summary`, and every input
article is still returned (one output per input). -/
theorem summarizer_failure_degrades (outcome : ProviderOutcome) (title : String)
    (call : NewsArticleDB → Except Unit String)
    (jsonLoads : String → Option (List String)) (write_time : ℝ)
    (article : NewsArticleDB) (articles : List NewsArticleDB) :
    (outcome = ProviderOutcome.unavailable ∨ outcome = ProviderOutcome.failure →
      summarize_article outcome title article.description =
        fallback_summary article.description) ∧
    (is_blank article.llm_summary = true → call article = Except.error () →
      (process_article call jsonLoads write_time article).1.llm_summary =
        some (fallback_summary article.description)) ∧
    (is_blank article.llm_summary = true →
      (outcome = ProviderOutcome.unavailable ∨ outcome = ProviderOutcome.failure) →
      call article =
        Except.ok (summarize_article outcome article.title article.description) →
      (process_article call jsonLoads write_time article).1.llm_summary =
        some (fallback_summary article.description)) ∧
    (process_articles call jsonLoads write_time articles).1.length =
      articles.length := by
  refine ⟨?_, ?_, ?_, ?_⟩
  · rintro (rfl | rfl) <;> rfl
  · intro hb hc
    unfold process_article
    rw [if_pos hb, hc]
  · intro hb hout hc
    unfold process_article
    rw [if_pos hb, hc]
    rcases hout with rfl | rfl <;> rfl
  · simp [process_articles]

/-- Witness for C7: a raising summarizer call on an article without a cached
summary yields the truncated-description fallback and the article is still
returned. -/
theorem summarizer_failure_degrades_witness :
    summarize_article ProviderOutcome.failure "TA" "DA" = fallback_summary "DA" ∧
    (process_article sample_call sample_json 0 artA).1.llm_summary =
      some (fallback_summary "DA") ∧
    (process_articles sample_call sample_json 0 [artA]).1.length = 1 := by
  have h := summarizer_failure_degrades ProviderOutcome.failure "TA" sample_call
    sample_json 0 artA [artA]
  exact ⟨h.1 (Or.inr rfl), h.2.1 rfl rfl, h.2.2.2⟩

/-- C8: two trending requests whose latitudes, longitudes and radii agree
after rounding to 2, 2 and 1 decimal places respectively and whose limits are
equal produce the identical cache key; and every entry stored by
set_trending_cache carries the fixed TTL of 300 seconds. -/
theorem cache_key_rounding_and_ttl (md5_hex : ℝ × ℝ × ℝ × ℕ → String)
    (lat1 lon1 r1 lat2 lon2 r2 : ℝ) (limit : ℕ) (data : String)
    (redis_available : Bool)
    (hlat : py_round lat1 2 = py_round lat2 2)
    (hlon : py_round lon1 2 = py_round lon2 2)
    (hrad : py_round r1 1 = py_round r2 1) :
    generate_cache_key md5_hex lat1 lon1 r1 limit =
      generate_cache_key md5_hex lat2 lon2 r2 limit ∧
    (set_trending_cache md5_hex redis_available lat1 lon1 r1 limit data).map
        CacheEntry.ttl =
      if redis_available then some 300 else none := by
  constructor
  · unfold generate_cache_key
    rw [hlat, hlon, hrad]
  · unfold set_trending_cache
    cases redis_available
    · rfl
    · rfl

/-- Witness for C8: latitudes 0.004 and 0.001 both round to 0 at two decimal
places, so the keys agree, and the stored entry has TTL 300. -/
theorem cache_key_rounding_and_ttl_witness :
    generate_cache_key (fun _ => "h") 0.004 0 10 5 =
      generate_cache_key (fun _ => "h") 0.001 0 10 5 ∧
    (set_trending_cache (fun _ => "h") true 0.004 0 10 5 "d").map CacheEntry.ttl =
      if true then some 300 else none := by
  have hlat : py_round 0.004 2 = py_round 0.001 2 := by
    unfold py_round
    rw [round_eq, round_eq]
    norm_num
  exact cache_key_rounding_and_ttl (fun _ => "h") 0.004 0 10 0.001 0 10 5 "d" true
    hlat rfl rfl

/-- C10 counterexample: committing a freshly generated summary is an UPDATE
of the row, so the `onupdate=datetime.utcnow` default of `updated_at`
(database.py:35) rewrites that column as well: on a row with `updated_at` 5
and no summary, a successful summarizer call committed at time 7 leaves the
store row with `llm_summary` written and `updated_at` 7 ≠ 5 — refuting the
statement that `llm_summary` is the only store field processing may write. -/
theorem store_write_touches_updated_at :
    (process_article sample_ok_call sample_json 7 artD).2.llm_summary = some "sum" ∧
    (process_article sample_ok_call sample_json 7 artD).2.updated_at = 7 ∧
    artD.updated_at = 5 ∧
    (process_article sample_ok_call sample_json 7 artD).2.updated_at ≠
      artD.updated_at := by
  refine ⟨rfl, rfl, rfl, ?_⟩
  show (7:ℝ) ≠ 5
  norm_num

/-- C10 (amended): article processing returns exactly one output per input in
order; every output field other than `llm_summary` and the decoded category
equals the stored value; and the store columns it may write are `llm_summary`
together with the `onupdate`-maintained `updated_at`, and only when the
stored summary was previously blank. -/
theorem process_articles_frame_effect (call : NewsArticleDB → Except Unit String)
    (jsonLoads : String → Option (List String)) (write_time : ℝ)
    (articles : List NewsArticleDB) :
    (process_articles call jsonLoads write_time articles).1.map article_frame =
      articles.map db_frame ∧
    List.Forall₂
      (fun a s =>
        ({ s with llm_summary := a.llm_summary, updated_at := a.updated_at }
            : NewsArticleDB) = a ∧
        (is_blank a.llm_summary = false → s = a))
      articles (process_articles call jsonLoads write_time articles).2 :=
  ⟨by
    simp only [process_articles, List.map_map]
    exact List.map_congr_left fun a _ => rfl,
   process_articles_store_rel call jsonLoads write_time articles⟩

/-- Witness for the amended C10: a store row that already has a summary
passes through processing with its frame intact and its row unchanged. -/
theorem process_articles_frame_effect_witness :
    (process_articles sample_call sample_json 0 [artC]).1.map article_frame =
      [artC].map db_frame ∧
    (process_articles sample_call sample_json 0 [artC]).2 = [artC] := by
  have h := process_articles_frame_effect sample_call sample_json 0 [artC]
  refine ⟨h.1, ?_⟩
  show [(process_article sample_call sample_json 0 artC).2] = [artC]
  rw [(process_article_store sample_call sample_json 0 artC).2 rfl]

/-- C3: the total_count of a trending response is the number of candidate
articles (the nearby list fetched with twice the limit) whose trending score
is strictly positive — the total available before truncation to the limit. -/
theorem trending_total_count_counts_positive
    (call : NewsArticleDB → Except Unit String)
    (jsonLoads : String → Option (List String)) (write_time : ℝ)
    (events : List UserEventDB)
    (now latitude longitude radius_km : ℝ) (limit : ℕ)
    (all_articles : List NewsArticleDB) :
    (get_trending_news call jsonLoads write_time events now latitude longitude radius_km limit
        all_articles).total_count =
      ((trending_candidates call jsonLoads write_time latitude longitude radius_km limit
          all_articles).filter fun a =>
        decide (0 < calculate_trending_score events now a.id latitude longitude
          radius_km)).length := by
  simp only [get_trending_news]
  by_cases hc : trending_candidates call jsonLoads write_time latitude longitude radius_km limit
      all_articles = []
  · rw [if_pos hc, hc]
    rfl
  · rw [if_neg hc]
    show (trending_data events now latitude longitude radius_km
      (trending_candidates call jsonLoads write_time latitude longitude radius_km limit
        all_articles)).length = _
    rw [trending_data_eq, List.length_map]

/-- C9: in every trending response, `trending_scores` is exactly the list of
trending scores of the corresponding entries of `articles` (same length,
pointwise aligned); and when no stored article lies within the radius, the
response has empty articles, empty scores and total_count 0. -/
theorem trending_scores_match_articles
    (call : NewsArticleDB → Except Unit String)
    (jsonLoads : String → Option (List String)) (write_time : ℝ)
    (events : List UserEventDB)
    (now latitude longitude radius_km : ℝ) (limit : ℕ)
    (all_articles : List NewsArticleDB) :
    (get_trending_news call jsonLoads write_time events now latitude longitude radius_km limit
        all_articles).trending_scores =
      (get_trending_news call jsonLoads write_time events now latitude longitude radius_km limit
        all_articles).articles.map
        (fun a => calculate_trending_score events now a.id latitude longitude
          radius_km) ∧
    ((∀ a ∈ all_articles,
        radius_km < calculate_distance latitude longitude a.latitude a.longitude) →
      (get_trending_news call jsonLoads write_time events now latitude longitude radius_km limit
        all_articles).articles = [] ∧
      (get_trending_news call jsonLoads write_time events now latitude longitude radius_km limit
        all_articles).trending_scores = [] ∧
      (get_trending_news call jsonLoads write_time events now latitude longitude radius_km limit
        all_articles).total_count = 0) := by
  constructor
  · simp only [get_trending_news]
    by_cases hc : trending_candidates call jsonLoads write_time latitude longitude radius_km limit
        all_articles = []
    · rw [if_pos hc]
      rfl
    · rw [if_neg hc]
      show ((trending_sorted (trending_data events now latitude longitude radius_km
            (trending_candidates call jsonLoads write_time latitude longitude radius_km limit
              all_articles))).take limit).map Prod.snd =
        (((trending_sorted (trending_data events now latitude longitude radius_km
            (trending_candidates call jsonLoads write_time latitude longitude radius_km limit
              all_articles))).take limit).map Prod.fst).map
          (fun a => calculate_trending_score events now a.id latitude longitude
            radius_km)
      rw [List.map_map]
      apply List.map_congr_left
      intro p hp
      have hst : p ∈ trending_sorted (trending_data events now latitude longitude
          radius_km (trending_candidates call jsonLoads write_time latitude longitude radius_km
            limit all_articles)) := List.mem_of_mem_take hp
      have htd : p ∈ trending_data events now latitude longitude radius_km
          (trending_candidates call jsonLoads write_time latitude longitude radius_km limit
            all_articles) := by
        simpa [trending_sorted] using hst
      exact (mem_trending_data htd).2.1
  · intro hfar
    have hfilter : (all_articles.filter fun a =>
        decide (calculate_distance latitude longitude a.latitude a.longitude ≤
          radius_km)) = [] := by
      apply List.filter_eq_nil_iff.mpr
      intro a ha
      simp only [decide_eq_true_eq]
      exact not_le.mpr (hfar a ha)
    have hnear : nearby_with_distance latitude longitude radius_km all_articles = [] := by
      rw [nearby_with_distance_eq, hfilter]
      rfl
    have hcand : trending_candidates call jsonLoads write_time latitude longitude radius_km limit
        all_articles = [] := by
      unfold trending_candidates get_nearby_news get_nearby_news_articles nearby_sorted
      rw [hnear]
      simp [List.insertionSort, process_articles]
    simp only [get_trending_news]
    rw [if_pos hcand]
    exact ⟨rfl, rfl, rfl⟩

/-- Witness for C9: with an empty article store nothing is within the radius
and the trending response is empty. -/
theorem trending_scores_match_articles_witness :
    (get_trending_news sample_call sample_json 0 [] 0 0 0 10 5 []).articles = [] ∧
    (get_trending_news sample_call sample_json 0 [] 0 0 0 10 5 []).trending_scores = [] ∧
    (get_trending_news sample_call sample_json 0 [] 0 0 0 10 5 []).total_count = 0 :=
  (trending_scores_match_articles sample_call sample_json 0 [] 0 0 0 10 5 []).2
    (fun a ha => absurd ha (List.not_mem_nil a))

/-- C4: the trending response contains only candidates with strictly positive
trending score (a zero-scoring candidate is excluded), has at most `limit`
articles, its score list is sorted in descending order, the article list is
the limit-truncation of the stable descending sort of the scored candidates,
and the sort is stable: filtering the sorted list at any score value returns
those candidates in their original candidate order. -/
theorem trending_output_ranked (call : NewsArticleDB → Except Unit String)
    (jsonLoads : String → Option (List String)) (write_time : ℝ)
    (events : List UserEventDB)
    (now latitude longitude radius_km : ℝ) (limit : ℕ)
    (all_articles : List NewsArticleDB) :
    (∀ a ∈ (get_trending_news call jsonLoads write_time events now latitude longitude radius_km
        limit all_articles).articles,
      a ∈ trending_candidates call jsonLoads write_time latitude longitude radius_km limit
          all_articles ∧
        0 < calculate_trending_score events now a.id latitude longitude radius_km) ∧
    (get_trending_news call jsonLoads write_time events now latitude longitude radius_km limit
        all_articles).articles.length ≤ limit ∧
    (get_trending_news call jsonLoads write_time events now latitude longitude radius_km limit
        all_articles).trending_scores.Sorted (· ≥ ·) ∧
    (get_trending_news call jsonLoads write_time events now latitude longitude radius_km limit
        all_articles).articles =
      ((trending_sorted (trending_data events now latitude longitude radius_km
        (trending_candidates call jsonLoads write_time latitude longitude radius_km limit
          all_articles))).take limit).map Prod.fst ∧
    (∀ s : ℝ,
      (trending_sorted (trending_data events now latitude longitude radius_km
        (trending_candidates call jsonLoads write_time latitude longitude radius_km limit
          all_articles))).filter (fun p => decide (p.2 = s)) =
      (trending_data events now latitude longitude radius_km
        (trending_candidates call jsonLoads write_time latitude longitude radius_km limit
          all_articles)).filter (fun p => decide (p.2 = s))) := by
  have hstab : ∀ (td : List (NewsArticle × ℝ)) (s : ℝ),
      (trending_sorted td).filter (fun p => decide (p.2 = s)) =
        td.filter (fun p => decide (p.2 = s)) := by
    intro td s
    unfold trending_sorted
    exact filter_key_insertionSort Prod.snd score_ge
      (fun a b h => ne_of_lt (lt_of_not_le h)) td s
  simp only [get_trending_news]
  by_cases hc : trending_candidates call jsonLoads write_time latitude longitude radius_km limit
      all_articles = []
  · rw [if_pos hc, hc]
    refine ⟨?_, ?_, ?_, ?_, fun s => hstab _ s⟩
    · intro a ha
      exact absurd ha (List.not_mem_nil a)
    · exact Nat.zero_le limit
    · exact List.sorted_nil
    · simp [trending_data, trending_sorted, List.insertionSort]
  · rw [if_neg hc]
    have hsorted : List.Sorted score_ge (trending_sorted (trending_data events now
        latitude longitude radius_km (trending_candidates call jsonLoads write_time latitude
          longitude radius_km limit all_articles))) :=
      List.sorted_insertionSort score_ge _
    refine ⟨?_, ?_, ?_, rfl, fun s => hstab _ s⟩
    · intro a ha
      rcases List.mem_map.mp ha with ⟨p, hp, rfl⟩
      have hst : p ∈ trending_sorted (trending_data events now latitude longitude
          radius_km (trending_candidates call jsonLoads write_time latitude longitude radius_km
            limit all_articles)) := List.mem_of_mem_take hp
      have htd : p ∈ trending_data events now latitude longitude radius_km
          (trending_candidates call jsonLoads write_time latitude longitude radius_km limit
            all_articles) := by
        simpa [trending_sorted] using hst
      rcases mem_trending_data htd with ⟨hmem, hscore, hpos⟩
      exact ⟨hmem, hscore ▸ hpos⟩
    · show (((trending_sorted (trending_data events now latitude longitude radius_km
        (trending_candidates call jsonLoads write_time latitude longitude radius_km limit
          all_articles))).take limit).map Prod.fst).length ≤ limit
      rw [List.length_map, List.length_take]
      exact min_le_left _ _
    · show List.Sorted (· ≥ ·) (((trending_sorted (trending_data events now latitude
        longitude radius_km (trending_candidates call jsonLoads write_time latitude longitude
          radius_km limit all_articles))).take limit).map Prod.snd)
      have htake : List.Pairwise score_ge ((trending_sorted (trending_data events now
          latitude longitude radius_km (trending_candidates call jsonLoads write_time latitude
            longitude radius_km limit all_articles))).take limit) :=
        List.Pairwise.sublist (List.take_sublist _ _) hsorted
      exact (List.pairwise_map).mpr (htake.imp fun h => h)

/-- Witness for C4: in the sample trending query the single returned article
is a candidate with strictly positive score. -/
theorem trending_output_ranked_witness :
    processedA ∈ trending_candidates sample_call sample_json 0 0 0 10 1 [artA] ∧
    0 < calculate_trending_score [sample_event] 0 processedA.id 0 0 10 := by
  have h := trending_output_ranked sample_call sample_json 0 [sample_event] 0 0 0 10
    1 [artA]
  apply h.1 processedA
  have harts : (get_trending_news sample_call sample_json 0 [sample_event] 0 0 0 10 1
      [artA]).articles = [processedA] := by
    rw [trending_sample_eval]
  rw [harts]
  exact List.mem_singleton.mpr rfl

/-- C5 (amended): every returned nearby article is within the radius, the
result is ordered ascending by haversine distance and has at most `limit`
entries, and every candidate excluded from the result either lies strictly
beyond the radius or was cut by the limit truncation (in which case the
result is full); the processed output preserves the coordinates of the
selected rows in order.  (The stronger statement of the claim — every excluded
candidate lies strictly beyond the radius — fails because of the truncation,
see the counterexample.) -/
theorem nearby_radius_and_order (call : NewsArticleDB → Except Unit String)
    (jsonLoads : String → Option (List String)) (write_time : ℝ)
    (latitude longitude radius_km : ℝ) (limit : ℕ)
    (all_articles : List NewsArticleDB) :
    (∀ a ∈ get_nearby_news_articles latitude longitude radius_km limit all_articles,
      calculate_distance latitude longitude a.latitude a.longitude ≤ radius_km) ∧
    List.Pairwise (fun a b : NewsArticleDB =>
      calculate_distance latitude longitude a.latitude a.longitude ≤
        calculate_distance latitude longitude b.latitude b.longitude)
      (get_nearby_news_articles latitude longitude radius_km limit all_articles) ∧
    (get_nearby_news_articles latitude longitude radius_km limit all_articles).length ≤
      limit ∧
    (∀ a ∈ all_articles,
      a ∉ get_nearby_news_articles latitude longitude radius_km limit all_articles →
      radius_km < calculate_distance latitude longitude a.latitude a.longitude ∨
        (get_nearby_news_articles latitude longitude radius_km limit
          all_articles).length = limit) ∧
    (get_nearby_news call jsonLoads write_time latitude longitude radius_km limit
        all_articles).map (fun p => (p.latitude, p.longitude)) =
      (get_nearby_news_articles latitude longitude radius_km limit all_articles).map
        (fun a => (a.latitude, a.longitude)) := by
  have hmem_st : ∀ p ∈ nearby_sorted (nearby_with_distance latitude longitude radius_km
      all_articles),
      p.1 ∈ all_articles ∧
        p.2 = calculate_distance latitude longitude p.1.latitude p.1.longitude ∧
        p.2 ≤ radius_km := by
    intro p hp
    exact mem_nearby_with_distance (by simpa [nearby_sorted] using hp)
  refine ⟨?_, ?_, ?_, ?_, ?_⟩
  · intro a ha
    rcases List.mem_map.mp ha with ⟨p, hp, rfl⟩
    rcases hmem_st p (List.mem_of_mem_take hp) with ⟨_, h2, h3⟩
    rw [← h2]
    exact h3
  · have hsorted : List.Pairwise dist_le (nearby_sorted (nearby_with_distance latitude
        longitude radius_km all_articles)) := List.sorted_insertionSort dist_le _
    have htake : List.Pairwise dist_le ((nearby_sorted (nearby_with_distance latitude
        longitude radius_km all_articles)).take limit) :=
      List.Pairwise.sublist (List.take_sublist _ _) hsorted
    unfold get_nearby_news_articles
    rw [List.pairwise_map]
    refine List.Pairwise.imp_of_mem ?_ htake
    intro p q hp hq hpq
    rcases hmem_st p (List.mem_of_mem_take hp) with ⟨_, h2p, _⟩
    rcases hmem_st q (List.mem_of_mem_take hq) with ⟨_, h2q, _⟩
    rw [← h2p, ← h2q]
    exact hpq
  · unfold get_nearby_news_articles
    rw [List.length_map, List.length_take]
    exact min_le_left _ _
  · intro a ha hnot
    by_cases hd : calculate_distance latitude longitude a.latitude a.longitude ≤
        radius_km
    · right
      have hmem : (a, calculate_distance latitude longitude a.latitude a.longitude) ∈
          nearby_with_distance latitude longitude radius_km all_articles := by
        rw [nearby_with_distance_eq]
        exact List.mem_map.mpr ⟨a, List.mem_filter.mpr ⟨ha, decide_eq_true hd⟩, rfl⟩
      have hmemst : (a, calculate_distance latitude longitude a.latitude a.longitude) ∈
          nearby_sorted (nearby_with_distance latitude longitude radius_km
            all_articles) := by
        simpa [nearby_sorted] using hmem
      rcases le_or_lt (nearby_sorted (nearby_with_distance latitude longitude radius_km
          all_articles)).length limit with hle | hlt
      · exfalso
        apply hnot
        unfold get_nearby_news_articles
        rw [List.take_of_length_le hle]
        exact List.mem_map.mpr ⟨_, hmemst, rfl⟩
      · unfold get_nearby_news_articles
        rw [List.length_map, List.length_take]
        exact min_eq_left hlt.le
    · exact Or.inl (lt_of_not_le hd)
  · unfold get_nearby_news
    simp only [process_articles, List.map_map]
    exact List.map_congr_left fun a _ => rfl

/-- C5 counterexample: with two co-located articles inside the radius and
limit 1, artB is a candidate excluded from the result although its distance
(0) is within the radius — the exclusion is caused by the limit truncation,
refuting the claim that every excluded candidate lies strictly beyond the
radius. -/
theorem nearby_excluded_within_radius :
    artB ∈ [artA, artB] ∧
    artB ∉ get_nearby_news_articles 0 0 10 1 [artA, artB] ∧
    calculate_distance 0 0 artB.latitude artB.longitude ≤ 10 ∧
    (get_nearby_news_articles 0 0 10 1 [artA, artB]).length = 1 := by
  refine ⟨by simp, ?_, ?_, by rw [nearby_sample_AB]; rfl⟩
  · rw [nearby_sample_AB]
    intro h
    exact absurd (congrArg NewsArticleDB.id (List.mem_singleton.mp h)) (by decide)
  · rw [show artB.latitude = (0:ℝ) from rfl, show artB.longitude = (0:ℝ) from rfl,
      calculate_distance_self]
    norm_num

/-- Witness for the amended C5: the excluded co-located candidate artB
satisfies the amended disjunction — here because the result is full at the
limit. -/
theorem nearby_radius_and_order_witness :
    10 < calculate_distance 0 0 artB.latitude artB.longitude ∨
    (get_nearby_news_articles 0 0 10 1 [artA, artB]).length = 1 := by
  have h := nearby_radius_and_order sample_call sample_json 0 0 0 10 1 [artA, artB]
  apply h.2.2.2.1 artB (by simp)
  intro hmem
  rw [nearby_sample_AB] at hmem
  exact absurd (congrArg NewsArticleDB.id (List.mem_singleton.mp hmem)) (by decide)

end

end NewsApi
